import Mathlib

/-!
Verification of the locker-rental backend (`backend/server.py`).

The backend stores three MongoDB collections — lockers, rentals and payment
transactions — and exposes a handful of operations over them: rental creation,
payment-status polling, a Stripe webhook handler, PIN unlock, and a periodic
expiry sweep.  We embed the collections as lists of records and the MongoDB
primitives `find_one` (first matching document, in natural order) and
`update_one` (update the first matching document) as `List.find?` and
`updateFirst`.  Timestamps are integers (seconds), the 24-hour rental period is
`24 * 60 * 60`, and monetary amounts are exact rationals.
-/

namespace LockerSys

/-! ## Data model (`server.py`, Pydantic models) -/

inductive LockerSize where
  | small
  | medium
  | large
deriving DecidableEq, Repr

inductive LockerStatus where
  | available
  | occupied
  | maintenance
deriving DecidableEq, Repr

inductive PaymentStatus where
  | pending
  | success
  | failed
  | expired
deriving DecidableEq, Repr

/-- A locker document (model `Locker`). -/
structure Locker where
  id : String
  number : Nat
  size : LockerSize
  status : LockerStatus
  current_rental_id : Option String
  created_at : Int
deriving DecidableEq, Repr

/-- A rental document (model `Rental`). -/
structure Rental where
  id : String
  locker_id : String
  locker_number : Nat
  locker_size : LockerSize
  access_pin : String
  payment_session_id : Option String
  payment_status : PaymentStatus
  amount : Rat
  currency : String
  start_time : Int
  end_time : Int
  is_expired : Bool
  created_at : Int
deriving DecidableEq, Repr

/-- A payment-transaction document (model `PaymentTransaction`). -/
structure PaymentTransaction where
  id : String
  session_id : String
  rental_id : String
  amount : Rat
  currency : String
  payment_status : PaymentStatus
  metadata : List (String × String)
  created_at : Int
  updated_at : Int
deriving DecidableEq, Repr

/-- The three MongoDB collections used by the backend. -/
structure DB where
  lockers : List Locker
  rentals : List Rental
  payment_transactions : List PaymentTransaction
deriving DecidableEq, Repr

/-! ## MongoDB primitives

`db.<coll>.find_one(filter)` returns the first matching document
(`List.find?`); `db.<coll>.update_one(filter, {"$set": ...})` applies the
update to the first matching document only, and is a no-op when nothing
matches. -/

/-- `update_one`: apply `f` to the first element satisfying `p`. -/
def updateFirst {α : Type} (p : α → Bool) (f : α → α) : List α → List α
  | [] => []
  | x :: xs => if p x then f x :: xs else x :: updateFirst p f xs

theorem updateFirst_of_find?_none {α : Type} (p : α → Bool) (f : α → α)
    (xs : List α) (h : xs.find? p = none) : updateFirst p f xs = xs := by
  induction xs with
  | nil => rfl
  | cons x xs ih =>
    cases hpx : p x with
    | true => rw [List.find?_cons_of_pos _ hpx] at h; cases h
    | false =>
      rw [List.find?_cons_of_neg _ (by simp [hpx])] at h
      simp [updateFirst, hpx, ih h]

theorem mem_updateFirst_of_neg {α : Type} (p : α → Bool) (f : α → α)
    (a : α) (xs : List α) (ha : a ∈ xs) (hpa : p a = false) :
    a ∈ updateFirst p f xs := by
  induction xs with
  | nil => cases ha
  | cons x xs ih =>
    rcases List.mem_cons.mp ha with rfl | hmem
    · simp [updateFirst, hpa]
    · cases hpx : p x with
      | true => simp [updateFirst, hpx, hmem]
      | false => simpa [updateFirst, hpx] using Or.inr (ih hmem)

theorem find?_updateFirst_same {α : Type} (p : α → Bool) (f : α → α)
    (xs : List α) (a : α) (h : xs.find? p = some a) (hfa : p (f a) = true) :
    (updateFirst p f xs).find? p = some (f a) := by
  induction xs with
  | nil => cases h
  | cons x xs ih =>
    cases hpx : p x with
    | true =>
      rw [List.find?_cons_of_pos _ hpx] at h
      cases h
      simp [updateFirst, hpx, List.find?_cons_of_pos _ hfa]
    | false =>
      rw [List.find?_cons_of_neg _ (by simp [hpx])] at h
      have hstep : updateFirst p f (x :: xs) = x :: updateFirst p f xs := by
        simp [updateFirst, hpx]
      rw [hstep, List.find?_cons_of_neg _ (by simp [hpx])]
      exact ih h

theorem updateFirst_eq_of_fix {α : Type} (p : α → Bool) (f : α → α)
    (xs : List α) (a : α) (h : xs.find? p = some a) (hfa : f a = a) :
    updateFirst p f xs = xs := by
  induction xs with
  | nil => cases h
  | cons x xs ih =>
    cases hpx : p x with
    | true =>
      rw [List.find?_cons_of_pos _ hpx] at h
      cases h
      simp [updateFirst, hpx, hfa]
    | false =>
      rw [List.find?_cons_of_neg _ (by simp [hpx])] at h
      simp [updateFirst, hpx, ih h]

theorem map_updateFirst_congr {α γ : Type} (g : α → γ) (p : α → Bool) (f : α → α)
    (xs : List α) (h : ∀ x, g (f x) = g x) :
    (updateFirst p f xs).map g = xs.map g := by
  induction xs with
  | nil => rfl
  | cons x xs ih =>
    cases hpx : p x with
    | true => simp [updateFirst, hpx, h]
    | false => simp [updateFirst, hpx, ih]

theorem map_updateFirst_first {α γ : Type} (g : α → γ) (p : α → Bool) (f : α → α)
    (xs : List α) (a : α) (h : xs.find? p = some a) (hg : g (f a) = g a) :
    (updateFirst p f xs).map g = xs.map g := by
  induction xs with
  | nil => cases h
  | cons x xs ih =>
    cases hpx : p x with
    | true =>
      rw [List.find?_cons_of_pos _ hpx] at h
      cases h
      simp [updateFirst, hpx, hg]
    | false =>
      rw [List.find?_cons_of_neg _ (by simp [hpx])] at h
      simp [updateFirst, hpx, ih h]

theorem find?_key_of_nodup {α β : Type} [DecidableEq β] (key : α → β)
    (xs : List α) (hnd : (xs.map key).Nodup) (a : α) (ha : a ∈ xs) :
    xs.find? (fun x => decide (key x = key a)) = some a := by
  induction xs with
  | nil => cases ha
  | cons x xs ih =>
    rw [List.map_cons, List.nodup_cons] at hnd
    rcases List.mem_cons.mp ha with rfl | hmem
    · exact List.find?_cons_of_pos _ (by simp)
    · have hne : key x ≠ key a := by
        intro hk
        exact hnd.1 (hk ▸ List.mem_map_of_mem key hmem)
      rw [List.find?_cons_of_neg _ (by simpa using hne)]
      exact ih hnd.2 hmem

theorem updateFirst_eq_of_key {α β : Type} [DecidableEq β] (p : α → Bool)
    (key : α → β) (f : α → α)
    (xs : List α) (hnd : (xs.map key).Nodup) (a : α)
    (hfind : xs.find? p = some a) (y : α)
    (hy : y ∈ updateFirst p f xs) (hky : key y = key a) : y = f a := by
  induction xs with
  | nil => cases hfind
  | cons x xs ih =>
    rw [List.map_cons, List.nodup_cons] at hnd
    cases hpx : p x with
    | true =>
      rw [List.find?_cons_of_pos _ hpx] at hfind
      injection hfind with hxa
      subst hxa
      simp only [updateFirst, hpx, if_true] at hy
      rcases List.mem_cons.mp hy with rfl | hmem
      · rfl
      · exact absurd (hky ▸ List.mem_map_of_mem key hmem) hnd.1
    | false =>
      rw [List.find?_cons_of_neg _ (by simp [hpx])] at hfind
      have hamem : a ∈ xs := List.mem_of_find?_eq_some hfind
      simp only [updateFirst, hpx, if_false] at hy
      rcases List.mem_cons.mp hy with rfl | hmem
      · exact absurd (hky ▸ List.mem_map_of_mem key hamem) hnd.1
      · exact ih hnd.2 hfind hmem

theorem find?_updateFirst_keyed {α β : Type} [DecidableEq β] (p : α → Bool)
    (key : α → β) (f : α → α) (hpf : ∀ x, p (f x) = p x)
    (xs : List α) (hnd : (xs.map key).Nodup) (a : α)
    (hfind : xs.find? p = some a) :
    (updateFirst (fun x => decide (key x = key a)) f xs).find? p = some (f a) := by
  induction xs with
  | nil => cases hfind
  | cons x xs ih =>
    rw [List.map_cons, List.nodup_cons] at hnd
    cases hpx : p x with
    | true =>
      rw [List.find?_cons_of_pos _ hpx] at hfind
      cases hfind
      simp only [updateFirst, decide_eq_true_eq, if_pos rfl]
      exact List.find?_cons_of_pos _ (by rw [hpf]; exact hpx)
    | false =>
      rw [List.find?_cons_of_neg _ (by simp [hpx])] at hfind
      have hamem : a ∈ xs := List.mem_of_find?_eq_some hfind
      have hne : key x ≠ key a := by
        intro hk
        exact hnd.1 (hk ▸ List.mem_map_of_mem key hamem)
      simp only [updateFirst, decide_eq_true_eq, if_neg hne]
      rw [List.find?_cons_of_neg _ (by simp [hpx])]
      exact ih hnd.2 hfind

/-! ## Utility functions (`server.py`) -/

/-- Python `random.randint(a, b)`: uniform over the inclusive range `[a, b]`,
modelled with an explicit random source `r` reduced modulo the range size. -/
def randint (a b r : Nat) : Nat := a + r % (b - a + 1)

/-- The numeric value produced by `generate_pin` (`random.randint(100000, 999999)`). -/
def pinValue (r : Nat) : Nat := randint 100000 999999 r

/-- `generate_pin`: the f-string rendering of `random.randint(100000, 999999)`. -/
def generate_pin (r : Nat) : String := toString (pinValue r)

/-! ## Expiry sweeper (`check_expired_rentals`) -/

/-- The sweeper's candidate query: rentals with `end_time < now`,
`is_expired = False` and `payment_status = SUCCESS` (natural order). -/
def findExpiredCandidates (now : Int) (db : DB) : List Rental :=
  db.rentals.filter fun r =>
    decide (r.end_time < now ∧ r.is_expired = false ∧ r.payment_status = .success)

/-- One candidate's processing in the sweep loop: mark the rental expired
(`update_one` on `id`), then release its locker (`update_one` on
`locker_id`, setting AVAILABLE and clearing `current_rental_id`). -/
def expireAndRelease (db : DB) (r : Rental) : DB :=
  { db with
    rentals := updateFirst (fun x => decide (x.id = r.id))
      (fun x => { x with is_expired := true }) db.rentals
    lockers := updateFirst (fun l => decide (l.id = r.locker_id))
      (fun l => { l with status := .available, current_rental_id := none }) db.lockers }

/-- One tick of `check_expired_rentals` with no storage failure: every
candidate is expired and released, in query order. -/
def check_expired_rentals_tick (now : Int) (db : DB) : DB :=
  (findExpiredCandidates now db).foldl expireAndRelease db

/-- The sweep loop body under failure injection: `fails id = true` means the
first `update_one` for that candidate raises.  The exception propagates out of
the `for` loop to the tick-level `except`, so processing stops at the first
failing candidate (the state reached so far is kept). -/
def sweepGo (fails : String → Bool) : List Rental → DB → DB
  | [], db => db
  | r :: rs, db => if fails r.id then db else sweepGo fails rs (expireAndRelease db r)

/-- One tick of `check_expired_rentals` with failure injection. -/
def sweepTickF (fails : String → Bool) (now : Int) (db : DB) : DB :=
  sweepGo fails (findExpiredCandidates now db) db

/-! ## Unlock endpoint (`unlock_locker`) -/

structure UnlockRequest where
  locker_number : Nat
  access_pin : String
deriving DecidableEq, Repr

structure UnlockResponse where
  success : Bool
  message : String
  locker_number : Option Nat
deriving DecidableEq, Repr

def invalidPinMessage : String := "Código PIN inválido ou cacifo não encontrado"

def expiredMessage : String := "Tempo de armazenamento expirado (24 horas)"

def unlockedMessage : String := "Cacifo desbloqueado com sucesso"

/-- The unlock lookup: first rental matching locker number, PIN,
`payment_status = SUCCESS` and `is_expired = False`. -/
def findActiveRental (req : UnlockRequest) (db : DB) : Option Rental :=
  db.rentals.find? fun r =>
    decide (r.locker_number = req.locker_number ∧ r.access_pin = req.access_pin ∧
      r.payment_status = .success ∧ r.is_expired = false)

/-- `POST /api/lockers/unlock`.  Returns the updated collections and the
response body.  The hardware actuation on the success path is an external
side effect with no stored-state footprint. -/
def unlock_locker (now : Int) (req : UnlockRequest) (db : DB) : DB × UnlockResponse :=
  match findActiveRental req db with
  | none => (db, ⟨false, invalidPinMessage, none⟩)
  | some rental =>
    if rental.end_time < now then
      ({ db with
         rentals := updateFirst (fun x => decide (x.id = rental.id))
           (fun x => { x with is_expired := true }) db.rentals
         lockers := updateFirst (fun l => decide (l.number = req.locker_number))
           (fun l => { l with status := .available, current_rental_id := none }) db.lockers },
       ⟨false, expiredMessage, none⟩)
    else
      (db, ⟨true, unlockedMessage, some req.locker_number⟩)

/-! ## Payment status endpoint (`get_payment_status`) -/

/-- An HTTP error produced with `HTTPException(status_code, detail)`. -/
inductive ApiError where
  | httpError (status_code : Nat) (detail : String)
deriving DecidableEq, Repr

/-- Python `str(e)` for a Starlette `HTTPException`. -/
def apiErrorStr : ApiError → String
  | .httpError c d => toString c ++ ": " ++ d

/-- The JSON body returned by `GET /api/payments/status/{session_id}`; the
paid and not-yet-paid shapes are merged with optional fields. -/
structure PaymentStatusResult where
  payment_status : String
  status : Option String
  rental_id : Option String
  locker_number : Option Nat
  access_pin : Option String
  end_time : Option Int
deriving DecidableEq, Repr

/-- The body of the `try:` block of `get_payment_status`.  The Stripe status
lookup is the external gateway's report, passed in as `gwPaymentStatus` /
`gwStatus` (the stub returns `"paid"` / `"success"`). -/
def get_payment_status_inner (gwPaymentStatus gwStatus session_id : String)
    (now : Int) (db : DB) : DB × Except ApiError PaymentStatusResult :=
  match db.rentals.find? (fun r => decide (r.payment_session_id = some session_id)) with
  | none => (db, .error (.httpError 404 "Aluguel não encontrado"))
  | some rental =>
    let txs := updateFirst (fun t => decide (t.session_id = session_id))
      (fun t => { t with
        payment_status := if gwPaymentStatus = "paid" then .success else .pending
        updated_at := now }) db.payment_transactions
    let db1 : DB := { db with payment_transactions := txs }
    if gwPaymentStatus = "paid" then
      let paidRentals := updateFirst (fun x => decide (x.id = rental.id))
        (fun x => { x with payment_status := .success }) db1.rentals
      ({ db1 with rentals := paidRentals },
       .ok { payment_status := "paid", status := none, rental_id := some rental.id,
             locker_number := some rental.locker_number,
             access_pin := some rental.access_pin, end_time := some rental.end_time })
    else
      (db1, .ok { payment_status := gwPaymentStatus, status := some gwStatus,
                  rental_id := none, locker_number := none, access_pin := none,
                  end_time := none })

/-- `GET /api/payments/status/{session_id}`: the `except Exception` clause
converts any error raised inside the `try:` — including the 404
`HTTPException` for an unknown session — into a 400 `HTTPException` whose
detail wraps `str(e)`. -/
def get_payment_status (gwPaymentStatus gwStatus session_id : String)
    (now : Int) (db : DB) : DB × Except ApiError PaymentStatusResult :=
  match get_payment_status_inner gwPaymentStatus gwStatus session_id now db with
  | (db', .error e) =>
    (db', .error (.httpError 400 ("Erro ao verificar pagamento: " ++ apiErrorStr e)))
  | out => out

/-- The collections after one poll of the payment-status endpoint with the
gateway reporting `"paid"`. -/
def pollPaidDB (gwStatus session_id : String) (now : Int) (db : DB) : DB :=
  (get_payment_status "paid" gwStatus session_id now db).1

/-! ## Stripe webhook endpoint (`stripe_webhook`) -/

structure WebhookReply where
  status : String
  message : Option String
deriving DecidableEq, Repr

/-- `POST /api/webhook/stripe`.  The parsed event (type and session id) comes
from the gateway library; for `checkout.session.completed` the transaction and
the rental matching the session are set to SUCCESS (`update_one`, a no-op when
nothing matches).  The stub's `handle_webhook` never raises, so the success
reply is always returned. -/
def stripe_webhook (event_type session_id : String) (now : Int) (db : DB) :
    DB × WebhookReply :=
  if event_type = "checkout.session.completed" then
    ({ db with
       payment_transactions := updateFirst (fun t => decide (t.session_id = session_id))
         (fun t => { t with payment_status := .success, updated_at := now })
         db.payment_transactions
       rentals := updateFirst (fun r => decide (r.payment_session_id = some session_id))
         (fun r => { r with payment_status := .success }) db.rentals },
     ⟨"success", none⟩)
  else (db, ⟨"success", none⟩)

/-- The collections after one webhook delivery of `checkout.session.completed`. -/
def webhookDB (session_id : String) (now : Int) (db : DB) : DB :=
  (stripe_webhook "checkout.session.completed" session_id now db).1

/-! ## Rental creation endpoint (`create_rental`) -/

/-- `LOCKER_PRICES` (EUR per 24 hours). -/
def LOCKER_PRICES : LockerSize → Rat
  | .small => 2
  | .medium => 3
  | .large => 5

def sizeStr : LockerSize → String
  | .small => "small"
  | .medium => "medium"
  | .large => "large"

structure RentalResponse where
  rental_id : String
  checkout_url : String
  session_id : String
deriving DecidableEq, Repr

/-- The nondeterministic inputs of `create_rental`: the generated uuids, the
generated PIN and the current clock. -/
structure CreateInputs where
  rental_id : String
  tx_id : String
  pin : String
  now : Int
deriving DecidableEq, Repr

/-- The stub gateway's fixed session id. -/
def stubSessionId : String := "fake_session"

/-- The stub gateway's fixed checkout URL. -/
def stubCheckoutUrl : String := "http://localhost/fake_checkout"

/-- `POST /api/rentals`.  `insertFails = true` injects a storage failure at
the `db.rentals.insert_one` step: the exception propagates (there is no
`try/except` in `create_rental`), surfacing as a 500, after the locker was
already flipped to OCCUPIED. -/
def create_rental (size : LockerSize) (inp : CreateInputs) (insertFails : Bool)
    (db : DB) : DB × Except ApiError RentalResponse :=
  match db.lockers.find? (fun l => decide (l.size = size ∧ l.status = .available)) with
  | none =>
    (db, .error (.httpError 400
      ("Não há cacifos " ++ sizeStr size ++ " disponíveis no momento")))
  | some locker =>
    let rental : Rental :=
      { id := inp.rental_id, locker_id := locker.id, locker_number := locker.number,
        locker_size := size, access_pin := inp.pin, payment_session_id := none,
        payment_status := .pending, amount := LOCKER_PRICES size, currency := "EUR",
        start_time := inp.now, end_time := inp.now + 24 * 60 * 60,
        is_expired := false, created_at := inp.now }
    let reserved := updateFirst (fun l => decide (l.id = locker.id))
      (fun l => { l with status := .occupied, current_rental_id := some rental.id })
      db.lockers
    let db1 : DB := { db with lockers := reserved }
    if insertFails then
      (db1, .error (.httpError 500 "Internal Server Error"))
    else
      let db2 : DB := { db1 with rentals := db1.rentals ++ [rental] }
      let withSession := updateFirst (fun x => decide (x.id = rental.id))
        (fun x => { x with payment_session_id := some stubSessionId }) db2.rentals
      let db3 : DB := { db2 with rentals := withSession }
      let tx : PaymentTransaction :=
        { id := inp.tx_id, session_id := stubSessionId, rental_id := rental.id,
          amount := rental.amount, currency := rental.currency,
          payment_status := .pending,
          metadata := [("rental_id", rental.id),
                       ("locker_number", toString rental.locker_number),
                       ("access_pin", rental.access_pin)],
          created_at := inp.now, updated_at := inp.now }
      let db4 : DB := { db3 with payment_transactions := db3.payment_transactions ++ [tx] }
      (db4, .ok { rental_id := rental.id, checkout_url := stubCheckoutUrl,
                  session_id := stubSessionId })

def exceptIsOk {ε α : Type} : Except ε α → Bool
  | .ok _ => true
  | .error _ => false

/-! ## Record-update fixpoint helpers -/

theorem rental_set_success_eq (x : Rental) (h : x.payment_status = .success) :
    { x with payment_status := PaymentStatus.success } = x := by
  cases x
  simp only at h
  rw [h]

theorem rental_set_expired_eq (x : Rental) (h : x.is_expired = true) :
    { x with is_expired := true } = x := by
  cases x
  simp only at h
  rw [h]

/-! ## Operation-level equation lemmas -/

theorem unlock_locker_none (now : Int) (req : UnlockRequest) (db : DB)
    (hf : findActiveRental req db = none) :
    unlock_locker now req db = (db, ⟨false, invalidPinMessage, none⟩) := by
  unfold unlock_locker
  rw [hf]

theorem unlock_locker_some (now : Int) (req : UnlockRequest) (db : DB) (r : Rental)
    (hf : findActiveRental req db = some r) :
    unlock_locker now req db =
      if r.end_time < now then
        ({ db with
           rentals := updateFirst (fun x => decide (x.id = r.id))
             (fun x => { x with is_expired := true }) db.rentals
           lockers := updateFirst (fun l => decide (l.number = req.locker_number))
             (fun l => { l with status := .available, current_rental_id := none })
             db.lockers },
         ⟨false, expiredMessage, none⟩)
      else (db, ⟨true, unlockedMessage, some req.locker_number⟩) := by
  unfold unlock_locker
  rw [hf]

theorem get_payment_status_paid_eq (gwStatus sid : String) (now : Int) (db : DB)
    (r : Rental)
    (hr : db.rentals.find? (fun x => decide (x.payment_session_id = some sid)) = some r) :
    pollPaidDB gwStatus sid now db =
      { db with
        rentals := updateFirst (fun x => decide (x.id = r.id))
          (fun x => { x with payment_status := .success }) db.rentals
        payment_transactions := updateFirst (fun t => decide (t.session_id = sid))
          (fun t => { t with payment_status := .success, updated_at := now })
          db.payment_transactions } := by
  unfold pollPaidDB get_payment_status get_payment_status_inner
  rw [hr]
  rfl

theorem stripe_webhook_completed_eq (sid : String) (now : Int) (db : DB) :
    webhookDB sid now db =
      { db with
        payment_transactions := updateFirst (fun t => decide (t.session_id = sid))
          (fun t => { t with payment_status := .success, updated_at := now })
          db.payment_transactions
        rentals := updateFirst (fun x => decide (x.payment_session_id = some sid))
          (fun x => { x with payment_status := .success }) db.rentals } := by
  unfold webhookDB stripe_webhook
  rw [if_pos rfl]

theorem sweepGo_eq_takeWhile (fails : String → Bool) (cs : List Rental) (db : DB) :
    sweepGo fails cs db =
      (cs.takeWhile fun r => !fails r.id).foldl expireAndRelease db := by
  induction cs generalizing db with
  | nil => rfl
  | cons r rs ih =>
    cases hf : fails r.id with
    | true => simp [sweepGo, hf, List.takeWhile_cons]
    | false => simp [sweepGo, hf, List.takeWhile_cons, ih]

theorem takeWhile_const_true {α : Type} (xs : List α) :
    (xs.takeWhile fun _ => true) = xs := by
  induction xs with
  | nil => rfl
  | cons x xs ih => simp [List.takeWhile_cons, ih]

theorem foldl_expire_rentals_mem (cs : List Rental) (db : DB) (r : Rental)
    (hr : r ∈ db.rentals) (hne : ∀ c ∈ cs, ¬ r.id = c.id) :
    r ∈ (cs.foldl expireAndRelease db).rentals := by
  induction cs generalizing db with
  | nil => exact hr
  | cons c cs ih =>
    rw [List.foldl_cons]
    refine ih _ ?_ fun c' hc' => hne c' (List.mem_cons_of_mem _ hc')
    exact mem_updateFirst_of_neg _ _ _ _ hr
      (decide_eq_false (hne c (List.mem_cons_self c cs)))

theorem foldl_expire_lockers_mem (cs : List Rental) (db : DB) (l : Locker)
    (hl : l ∈ db.lockers) (hne : ∀ c ∈ cs, ¬ l.id = c.locker_id) :
    l ∈ (cs.foldl expireAndRelease db).lockers := by
  induction cs generalizing db with
  | nil => exact hl
  | cons c cs ih =>
    rw [List.foldl_cons]
    refine ih _ ?_ fun c' hc' => hne c' (List.mem_cons_of_mem _ hc')
    exact mem_updateFirst_of_neg _ _ _ _ hl
      (decide_eq_false (hne c (List.mem_cons_self c cs)))

/-! ## Claim C4 -/

/-- C4: every unlock request that matches no active paid rental gets the one
fixed failure response, independent of which cause applied — wrong PIN,
unpaid rental, or already-expired rental: two failing runs are
indistinguishable. -/
theorem C4_unlock_failure_indistinguishable (now₁ now₂ : Int)
    (req₁ req₂ : UnlockRequest) (db₁ db₂ : DB)
    (h₁ : findActiveRental req₁ db₁ = none)
    (h₂ : findActiveRental req₂ db₂ = none) :
    (unlock_locker now₁ req₁ db₁).2 = (unlock_locker now₂ req₂ db₂).2 ∧
    (unlock_locker now₁ req₁ db₁).2 = ⟨false, invalidPinMessage, none⟩ := by
  rw [unlock_locker_none now₁ req₁ db₁ h₁, unlock_locker_none now₂ req₂ db₂ h₂]
  exact ⟨rfl, rfl⟩

def lkC4 : Locker := ⟨"L1", 1, .small, .occupied, some "r1", 0⟩

def rC4paid : Rental :=
  ⟨"r1", "L1", 1, .small, "111111", some "s1", .success, 2, "EUR", 0, 100, false, 0⟩

def rC4unpaid : Rental :=
  ⟨"r1", "L1", 1, .small, "111111", some "s1", .pending, 2, "EUR", 0, 100, false, 0⟩

def dbC4paid : DB := ⟨[lkC4], [rC4paid], []⟩

def dbC4unpaid : DB := ⟨[lkC4], [rC4unpaid], []⟩

theorem C4_witness :
    findActiveRental ⟨1, "999999"⟩ dbC4paid = none ∧
    findActiveRental ⟨1, "111111"⟩ dbC4unpaid = none ∧
    (unlock_locker 10 ⟨1, "999999"⟩ dbC4paid).2 =
      (unlock_locker 10 ⟨1, "111111"⟩ dbC4unpaid).2 :=
  ⟨by decide, by decide,
   (C4_unlock_failure_indistinguishable 10 10 ⟨1, "999999"⟩ ⟨1, "111111"⟩
     dbC4paid dbC4unpaid (by decide) (by decide)).1⟩

/-! ## Claim C9 -/

/-- C9: a successful unlock changes no stored record — the collections are
exactly as before the call; the only effect is the external hardware
side effect. -/
theorem C9_success_unlock_frame (now : Int) (req : UnlockRequest) (db : DB)
    (h : (unlock_locker now req db).2.success = true) :
    (unlock_locker now req db).1 = db := by
  cases hf : findActiveRental req db with
  | none =>
    rw [unlock_locker_none now req db hf] at h
    simp at h
  | some r =>
    rw [unlock_locker_some now req db r hf] at h ⊢
    by_cases hlt : r.end_time < now
    · rw [if_pos hlt] at h
      simp at h
    · rw [if_neg hlt]

def lkC9 : Locker := ⟨"L1", 1, .small, .occupied, some "r1", 0⟩

def rC9 : Rental :=
  ⟨"r1", "L1", 1, .small, "111111", some "s1", .success, 2, "EUR", 0, 100, false, 0⟩

def dbC9 : DB := ⟨[lkC9], [rC9], []⟩

theorem C9_witness :
    (unlock_locker 50 ⟨1, "111111"⟩ dbC9).2.success = true ∧
    (unlock_locker 50 ⟨1, "111111"⟩ dbC9).1 = dbC9 :=
  ⟨by decide, C9_success_unlock_frame 50 ⟨1, "111111"⟩ dbC9 (by decide)⟩

/-! ## Claim C10 -/

/-- C10: a `checkout.session.completed` webhook whose session id matches no
stored transaction and no stored rental is a silent no-op: both `update_one`
calls match nothing, no record changes, and the endpoint still replies
`{status: "success"}`. -/
theorem C10_webhook_unknown_session_noop (sid : String) (now : Int) (db : DB)
    (ht : db.payment_transactions.find? (fun t => decide (t.session_id = sid)) = none)
    (hr : db.rentals.find? (fun x => decide (x.payment_session_id = some sid)) = none) :
    stripe_webhook "checkout.session.completed" sid now db = (db, ⟨"success", none⟩) := by
  unfold stripe_webhook
  rw [if_pos rfl, updateFirst_of_find?_none _ _ _ ht, updateFirst_of_find?_none _ _ _ hr]

def rC10 : Rental :=
  ⟨"r1", "L1", 1, .small, "111111", some "s1", .pending, 2, "EUR", 0, 100, false, 0⟩

def txC10 : PaymentTransaction :=
  ⟨"t1", "s1", "r1", 2, "EUR", .pending, [], 0, 0⟩

def dbC10 : DB := ⟨[], [rC10], [txC10]⟩

theorem C10_witness :
    dbC10.payment_transactions.find? (fun t => decide (t.session_id = "sX")) = none ∧
    dbC10.rentals.find? (fun x => decide (x.payment_session_id = some "sX")) = none ∧
    stripe_webhook "checkout.session.completed" "sX" 5 dbC10 = (dbC10, ⟨"success", none⟩) :=
  ⟨by decide, by decide,
   C10_webhook_unknown_session_noop "sX" 5 dbC10 (by decide) (by decide)⟩

/-! ## Claim C1 -/

/-- C1: a Sweeper tick selects exactly the rentals with `end_time < now`,
`is_expired = false` and `payment_status = SUCCESS`; in particular a
never-paid (PENDING) rental is never marked expired by the sweep and its
locker is never released, however far past its `end_time` the clock is. -/
theorem C1_sweep_selects_exactly_paid (now : Int) (db : DB) (r : Rental)
    (hnd : (db.rentals.map Rental.id).Nodup)
    (hr : r ∈ db.rentals) (hp : r.payment_status = .pending)
    (honce : ∀ x ∈ db.rentals, x.locker_id = r.locker_id → x = r) :
    (∀ c, c ∈ findExpiredCandidates now db ↔
      c ∈ db.rentals ∧ c.end_time < now ∧ c.is_expired = false ∧
        c.payment_status = .success) ∧
    r ∈ (check_expired_rentals_tick now db).rentals ∧
    ∀ l ∈ db.lockers, l.id = r.locker_id →
      l ∈ (check_expired_rentals_tick now db).lockers := by
  have hmemiff : ∀ c, c ∈ findExpiredCandidates now db ↔
      c ∈ db.rentals ∧ c.end_time < now ∧ c.is_expired = false ∧
        c.payment_status = .success := by
    intro c
    simp [findExpiredCandidates, List.mem_filter, decide_eq_true_eq]
  refine ⟨hmemiff, ?_, ?_⟩
  · refine foldl_expire_rentals_mem _ _ _ hr ?_
    intro c hc hid
    have hcc := (hmemiff c).mp hc
    have hrc : r = c := List.inj_on_of_nodup_map hnd hr hcc.1 hid
    rw [hrc, hcc.2.2.2] at hp
    cases hp
  · intro l hl hid
    refine foldl_expire_lockers_mem _ _ _ hl ?_
    intro c hc hlc
    have hcc := (hmemiff c).mp hc
    have hcr : c = r := honce c hcc.1 (by rw [← hlc, hid])
    rw [hcr, hp] at hcc
    cases hcc.2.2.2

def lkC1 : Locker := ⟨"L1", 1, .small, .occupied, some "r1", 0⟩

def rC1 : Rental :=
  ⟨"r1", "L1", 1, .small, "111111", some "s1", .pending, 2, "EUR", 0, 10, false, 0⟩

def dbC1 : DB := ⟨[lkC1], [rC1], []⟩

theorem C1_witness :
    rC1.payment_status = .pending ∧ rC1.end_time < 1000 ∧
    rC1 ∈ (check_expired_rentals_tick 1000 dbC1).rentals ∧
    lkC1 ∈ (check_expired_rentals_tick 1000 dbC1).lockers :=
  ⟨by decide, by decide,
   (C1_sweep_selects_exactly_paid 1000 dbC1 rC1 (by decide) (by decide) (by decide)
     (by decide)).2.1,
   (C1_sweep_selects_exactly_paid 1000 dbC1 rC1 (by decide) (by decide) (by decide)
     (by decide)).2.2 lkC1 (by decide) (by decide)⟩

/-! ## Claim C2 -/

/-- C2: with a matching active paid rental, unlock at `now ≤ end_time`
(including the exact boundary) succeeds with the locker number and performs
no expiry; at `now > end_time` it lazily expires: the rental is marked
`is_expired = true`, the locker is set back to AVAILABLE with
`current_rental_id` cleared, and the response is a failure with the expiry
message. -/
theorem C2_unlock_lazy_expiry_boundary (now : Int) (req : UnlockRequest)
    (db : DB) (r : Rental)
    (hf : findActiveRental req db = some r)
    (hndR : (db.rentals.map Rental.id).Nodup)
    (hndL : (db.lockers.map Locker.number).Nodup) :
    (now ≤ r.end_time →
      unlock_locker now req db = (db, ⟨true, unlockedMessage, some req.locker_number⟩)) ∧
    (r.end_time < now →
      (unlock_locker now req db).2 = ⟨false, expiredMessage, none⟩ ∧
      (∀ x ∈ (unlock_locker now req db).1.rentals, x.id = r.id → x.is_expired = true) ∧
      (∀ l ∈ (unlock_locker now req db).1.lockers, l.number = req.locker_number →
        l.status = .available ∧ l.current_rental_id = none)) := by
  have hrmem : r ∈ db.rentals := List.mem_of_find?_eq_some hf
  constructor
  · intro hle
    rw [unlock_locker_some now req db r hf, if_neg (not_lt.mpr hle)]
  · intro hlt
    rw [unlock_locker_some now req db r hf, if_pos hlt]
    refine ⟨rfl, ?_, ?_⟩
    · intro x hx hid
      have hfr : db.rentals.find? (fun x => decide (x.id = r.id)) = some r :=
        find?_key_of_nodup Rental.id db.rentals hndR r hrmem
      have hx' := updateFirst_eq_of_key _ Rental.id _ db.rentals hndR r hfr x hx hid
      rw [hx']
    · intro l hl hn
      cases hfl : db.lockers.find? (fun l => decide (l.number = req.locker_number)) with
      | none =>
        rw [updateFirst_of_find?_none _ _ _ hfl] at hl
        have hfalse := List.find?_eq_none.mp hfl l hl
        simp [hn] at hfalse
      | some l0 =>
        have hpl0 := List.find?_some hfl
        simp only [decide_eq_true_eq] at hpl0
        have hkey : l.number = l0.number := by rw [hn, hpl0]
        have hl' := updateFirst_eq_of_key _ Locker.number _ db.lockers hndL l0 hfl l hl hkey
        rw [hl']
        exact ⟨rfl, rfl⟩

def lkC2 : Locker := ⟨"L1", 1, .small, .occupied, some "r1", 0⟩

def rC2 : Rental :=
  ⟨"r1", "L1", 1, .small, "111111", some "s1", .success, 2, "EUR", 0, 100, false, 0⟩

def dbC2 : DB := ⟨[lkC2], [rC2], []⟩

theorem C2_witness :
    findActiveRental ⟨1, "111111"⟩ dbC2 = some rC2 ∧
    unlock_locker 100 ⟨1, "111111"⟩ dbC2 = (dbC2, ⟨true, unlockedMessage, some 1⟩) ∧
    (unlock_locker 150 ⟨1, "111111"⟩ dbC2).2 = ⟨false, expiredMessage, none⟩ :=
  ⟨by decide,
   (C2_unlock_lazy_expiry_boundary 100 ⟨1, "111111"⟩ dbC2 rC2 (by decide) (by decide)
     (by decide)).1 (by decide),
   ((C2_unlock_lazy_expiry_boundary 150 ⟨1, "111111"⟩ dbC2 rC2 (by decide) (by decide)
     (by decide)).2 (by decide)).1⟩

/-! ## Claim C3 -/

/-- C3: payment confirmation is idempotent on both confirmation paths.  After
a first confirmation of session `sid` with the gateway reporting paid, a
second poll leaves the rental records exactly unchanged and the transactions'
`payment_status` column unchanged (the second invocation is a no-op on those
fields, only `updated_at` moves), with the session's rental and transaction at
SUCCESS; likewise a second webhook delivery after a first one. -/
theorem C3_confirm_payment_idempotent (sid gwStatus : String) (now₁ now₂ : Int)
    (db : DB) (r : Rental)
    (hr : db.rentals.find? (fun x => decide (x.payment_session_id = some sid)) = some r)
    (hndR : (db.rentals.map Rental.id).Nodup)
    (hndT : (db.payment_transactions.map PaymentTransaction.session_id).Nodup) :
    (pollPaidDB gwStatus sid now₂ (pollPaidDB gwStatus sid now₁ db)).rentals =
      (pollPaidDB gwStatus sid now₁ db).rentals ∧
    (pollPaidDB gwStatus sid now₂ (pollPaidDB gwStatus sid now₁ db)).payment_transactions.map
        PaymentTransaction.payment_status =
      (pollPaidDB gwStatus sid now₁ db).payment_transactions.map
        PaymentTransaction.payment_status ∧
    (∀ x ∈ (pollPaidDB gwStatus sid now₂ (pollPaidDB gwStatus sid now₁ db)).rentals,
      x.id = r.id → x.payment_status = .success) ∧
    (∀ t ∈ (pollPaidDB gwStatus sid now₂
        (pollPaidDB gwStatus sid now₁ db)).payment_transactions,
      t.session_id = sid → t.payment_status = .success) ∧
    (webhookDB sid now₂ (webhookDB sid now₁ db)).rentals =
      (webhookDB sid now₁ db).rentals ∧
    (webhookDB sid now₂ (webhookDB sid now₁ db)).payment_transactions.map
        PaymentTransaction.payment_status =
      (webhookDB sid now₁ db).payment_transactions.map
        PaymentTransaction.payment_status := by
  have hrmem : r ∈ db.rentals := List.mem_of_find?_eq_some hr
  have hfid : db.rentals.find? (fun x => decide (x.id = r.id)) = some r :=
    find?_key_of_nodup Rental.id db.rentals hndR r hrmem
  have h1 := get_payment_status_paid_eq gwStatus sid now₁ db r hr
  have hr2 : (pollPaidDB gwStatus sid now₁ db).rentals.find?
      (fun x => decide (x.payment_session_id = some sid)) =
      some { r with payment_status := .success } := by
    rw [h1]
    exact find?_updateFirst_keyed
      (fun x : Rental => decide (x.payment_session_id = some sid))
      Rental.id (fun x : Rental => { x with payment_status := .success })
      (fun x => rfl) db.rentals hndR r hr
  have h2 := get_payment_status_paid_eq gwStatus sid now₂
    (pollPaidDB gwStatus sid now₁ db) { r with payment_status := .success } hr2
  have hfid1 : (pollPaidDB gwStatus sid now₁ db).rentals.find?
      (fun x => decide (x.id = r.id)) = some { r with payment_status := .success } := by
    rw [h1]
    exact find?_updateFirst_same _ (fun x => { x with payment_status := .success })
      db.rentals r hfid (by simp)
  have hrentals : (pollPaidDB gwStatus sid now₂
      (pollPaidDB gwStatus sid now₁ db)).rentals =
      (pollPaidDB gwStatus sid now₁ db).rentals := by
    rw [h2]
    exact updateFirst_eq_of_fix _ _ _ _ hfid1
      (rental_set_success_eq { r with payment_status := .success } rfl)
  have htxmap : (pollPaidDB gwStatus sid now₂
      (pollPaidDB gwStatus sid now₁ db)).payment_transactions.map
        PaymentTransaction.payment_status =
      (pollPaidDB gwStatus sid now₁ db).payment_transactions.map
        PaymentTransaction.payment_status := by
    rw [h2]
    cases hft : db.payment_transactions.find? (fun t => decide (t.session_id = sid)) with
    | none =>
      have hnone1 : (pollPaidDB gwStatus sid now₁ db).payment_transactions =
          db.payment_transactions := by
        rw [h1]
        exact updateFirst_of_find?_none _ _ _ hft
      rw [hnone1, updateFirst_of_find?_none _ _ _ hft]
    | some t0 =>
      have hft1 : (pollPaidDB gwStatus sid now₁ db).payment_transactions.find?
          (fun t => decide (t.session_id = sid)) =
          some { t0 with payment_status := .success, updated_at := now₁ } := by
        rw [h1]
        have hp0 : decide
            (({ t0 with payment_status := PaymentStatus.success, updated_at := now₁ } :
              PaymentTransaction).session_id = sid) = true := by
          have hh := List.find?_some hft
          exact hh
        exact find?_updateFirst_same (fun t => decide (t.session_id = sid))
          (fun t => { t with payment_status := PaymentStatus.success, updated_at := now₁ })
          db.payment_transactions t0 hft hp0
      exact map_updateFirst_first _ _ _ _ _ hft1 rfl
  have hndT1 : ((pollPaidDB gwStatus sid now₁ db).payment_transactions.map
      PaymentTransaction.session_id).Nodup := by
    rw [h1, map_updateFirst_congr PaymentTransaction.session_id
      (fun t => decide (t.session_id = sid))
      (fun t => { t with payment_status := PaymentStatus.success, updated_at := now₁ })
      db.payment_transactions (fun t => rfl)]
    exact hndT
  refine ⟨hrentals, htxmap, ?_, ?_, ?_, ?_⟩
  · intro x hx hid
    rw [hrentals, h1] at hx
    have hx' := updateFirst_eq_of_key _ Rental.id _ db.rentals hndR r hfid x hx hid
    rw [hx']
  · intro t ht hts
    rw [h2] at ht
    cases hft1 : (pollPaidDB gwStatus sid now₁ db).payment_transactions.find?
        (fun t => decide (t.session_id = sid)) with
    | none =>
      rw [updateFirst_of_find?_none _ _ _ hft1] at ht
      have hfalse := List.find?_eq_none.mp hft1 t ht
      simp [hts] at hfalse
    | some t1 =>
      have hpt1 := List.find?_some hft1
      simp only [decide_eq_true_eq] at hpt1
      have hkey : t.session_id = t1.session_id := by rw [hts, hpt1]
      have ht' := updateFirst_eq_of_key _ PaymentTransaction.session_id _
        (pollPaidDB gwStatus sid now₁ db).payment_transactions hndT1 t1 hft1 t ht hkey
      rw [ht']
  · rw [stripe_webhook_completed_eq sid now₂ (webhookDB sid now₁ db),
      stripe_webhook_completed_eq sid now₁ db]
    have hp1 : decide
        (({ r with payment_status := PaymentStatus.success } :
          Rental).payment_session_id = some sid) = true := by
      have hh := List.find?_some hr
      exact hh
    have hs1 : (updateFirst (fun x => decide (x.payment_session_id = some sid))
        (fun x => { x with payment_status := .success }) db.rentals).find?
        (fun x => decide (x.payment_session_id = some sid)) =
        some { r with payment_status := .success } :=
      find?_updateFirst_same (fun x => decide (x.payment_session_id = some sid))
        (fun x => { x with payment_status := .success }) db.rentals r hr hp1
    exact updateFirst_eq_of_fix _ _ _ _ hs1
      (rental_set_success_eq { r with payment_status := .success } rfl)
  · rw [stripe_webhook_completed_eq sid now₂ (webhookDB sid now₁ db),
      stripe_webhook_completed_eq sid now₁ db]
    cases hft : db.payment_transactions.find? (fun t => decide (t.session_id = sid)) with
    | none =>
      rw [updateFirst_of_find?_none _ _ _ hft, updateFirst_of_find?_none _ _ _ hft]
    | some t0 =>
      have hp2 : decide
          (({ t0 with payment_status := PaymentStatus.success, updated_at := now₁ } :
            PaymentTransaction).session_id = sid) = true := by
        have hh := List.find?_some hft
        exact hh
      have hft1 := find?_updateFirst_same (fun t => decide (t.session_id = sid))
        (fun t => { t with payment_status := PaymentStatus.success, updated_at := now₁ })
        db.payment_transactions t0 hft hp2
      exact map_updateFirst_first _ _ _ _ _ hft1 rfl

def lkC3 : Locker := ⟨"L1", 1, .small, .occupied, some "r1", 0⟩

def rC3 : Rental :=
  ⟨"r1", "L1", 1, .small, "111111", some "s1", .pending, 2, "EUR", 0, 86400, false, 0⟩

def txC3 : PaymentTransaction := ⟨"t1", "s1", "r1", 2, "EUR", .pending, [], 0, 0⟩

def dbC3 : DB := ⟨[lkC3], [rC3], [txC3]⟩

theorem C3_witness :
    dbC3.rentals.find? (fun x => decide (x.payment_session_id = some "s1")) = some rC3 ∧
    (pollPaidDB "success" "s1" 7 (pollPaidDB "success" "s1" 3 dbC3)).rentals =
      (pollPaidDB "success" "s1" 3 dbC3).rentals :=
  ⟨by decide,
   (C3_confirm_payment_idempotent "s1" "success" 3 7 dbC3 rC3 (by decide) (by decide)
     (by decide)).1⟩

/-! ## Claim C5 -/

theorem create_rental_insertFails_eq (size : LockerSize) (inp : CreateInputs)
    (db : DB) (locker : Locker)
    (hfind : db.lockers.find? (fun l => decide (l.size = size ∧ l.status = .available)) =
      some locker) :
    create_rental size inp true db =
      ({ db with
         lockers := updateFirst (fun l => decide (l.id = locker.id))
           (fun l => { l with status := .occupied, current_rental_id := some inp.rental_id })
           db.lockers },
       .error (.httpError 500 "Internal Server Error")) := by
  unfold create_rental
  rw [hfind]
  rfl

def lkC5 : Locker := ⟨"L1", 1, .small, .available, none, 0⟩

def dbC5 : DB := ⟨[lkC5], [], []⟩

def inpC5 : CreateInputs := ⟨"R1", "T1", "123456", 0⟩

/-- C5 counterexample: with one AVAILABLE small locker, a rental-insert
failure in `create_rental` is an error exit of the creation path after which
the locker pool is changed — the locker stays OCCUPIED, no rollback runs. -/
theorem C5_counterexample :
    exceptIsOk (create_rental .small inpC5 true dbC5).2 = false ∧
    (create_rental .small inpC5 true dbC5).1.lockers ≠ dbC5.lockers ∧
    (create_rental .small inpC5 true dbC5).1.lockers =
      [⟨"L1", 1, .small, .occupied, some "R1", 0⟩] := by
  refine ⟨by decide, by decide, by decide⟩

/-- C5 amended: if the rental insert fails after the locker was flipped to
OCCUPIED, the error propagates with no rollback — no rental or transaction is
persisted, and the reserved locker is left OCCUPIED with `current_rental_id`
pointing at the never-persisted rental. -/
theorem C5_create_rental_no_rollback (size : LockerSize) (inp : CreateInputs)
    (db : DB) (locker : Locker)
    (hfind : db.lockers.find? (fun l => decide (l.size = size ∧ l.status = .available)) =
      some locker)
    (hnd : (db.lockers.map Locker.id).Nodup) :
    exceptIsOk (create_rental size inp true db).2 = false ∧
    (create_rental size inp true db).1.rentals = db.rentals ∧
    (create_rental size inp true db).1.payment_transactions = db.payment_transactions ∧
    ∀ l ∈ (create_rental size inp true db).1.lockers, l.id = locker.id →
      l.status = .occupied ∧ l.current_rental_id = some inp.rental_id := by
  rw [create_rental_insertFails_eq size inp db locker hfind]
  refine ⟨rfl, rfl, rfl, ?_⟩
  intro l hl hid
  have hlmem : locker ∈ db.lockers := List.mem_of_find?_eq_some hfind
  have hfl : db.lockers.find? (fun l => decide (l.id = locker.id)) = some locker :=
    find?_key_of_nodup Locker.id db.lockers hnd locker hlmem
  have hl' := updateFirst_eq_of_key _ Locker.id _ db.lockers hnd locker hfl l hl hid
  rw [hl']
  exact ⟨rfl, rfl⟩

theorem C5_witness :
    dbC5.lockers.find? (fun l => decide (l.size = .small ∧ l.status = .available)) =
      some lkC5 ∧
    exceptIsOk (create_rental .small inpC5 true dbC5).2 = false ∧
    (create_rental .small inpC5 true dbC5).1.rentals = dbC5.rentals :=
  ⟨by decide,
   (C5_create_rental_no_rollback .small inpC5 dbC5 lkC5 (by decide) (by decide)).1,
   (C5_create_rental_no_rollback .small inpC5 dbC5 lkC5 (by decide) (by decide)).2.1⟩

/-! ## Claim C6 -/

def lkC6a : Locker := ⟨"L1", 1, .small, .occupied, some "r1", 0⟩

def lkC6b : Locker := ⟨"L2", 2, .small, .occupied, some "r2", 0⟩

def rC6a : Rental :=
  ⟨"r1", "L1", 1, .small, "111111", some "s1", .success, 2, "EUR", 0, 10, false, 0⟩

def rC6b : Rental :=
  ⟨"r2", "L2", 2, .small, "222222", some "s2", .success, 2, "EUR", 0, 20, false, 0⟩

def dbC6 : DB := ⟨[lkC6a, lkC6b], [rC6a, rC6b], []⟩

/-- C6 counterexample: at tick time 100 both rentals are candidates; a
failure while expiring the first candidate aborts the `for` loop (the
exception is only caught outside it), so the second candidate is not expired
and its locker not released — the whole tick leaves the collections
unchanged. -/
theorem C6_counterexample :
    rC6b ∈ findExpiredCandidates 100 dbC6 ∧
    sweepTickF (fun s => decide (s = "r1")) 100 dbC6 = dbC6 ∧
    rC6b.is_expired = false ∧ lkC6b.status = .occupied := by
  refine ⟨by decide, by decide, by decide, by decide⟩

/-- C6 amended: a failure while expiring one candidate aborts the processing
of the later candidates of that same tick — the tick expires and releases
exactly the prefix of candidates before the first failing one, and the
remaining candidates are left for a later tick; with no failure the tick
processes every candidate. -/
theorem C6_sweep_failure_aborts_tick (fails : String → Bool) (now : Int) (db : DB) :
    sweepTickF fails now db =
      ((findExpiredCandidates now db).takeWhile fun r => !fails r.id).foldl
        expireAndRelease db ∧
    sweepTickF (fun _ => false) now db = check_expired_rentals_tick now db := by
  constructor
  · exact sweepGo_eq_takeWhile fails (findExpiredCandidates now db) db
  · rw [sweepTickF, sweepGo_eq_takeWhile, check_expired_rentals_tick]
    have hbeta : ((findExpiredCandidates now db).takeWhile
        fun r => !(fun _ : String => false) r.id) =
        (findExpiredCandidates now db).takeWhile fun _ => true := rfl
    rw [hbeta, takeWhile_const_true]

/-! ## Claim C7 -/

def rC7 : Rental :=
  ⟨"r1", "L1", 1, .small, "111111", some "s1", .pending, 2, "EUR", 0, 100, false, 0⟩

def dbC7 : DB := ⟨[], [rC7], []⟩

/-- C7 counterexample: for a session id matching no rental, the endpoint does
not fail with the 404 raised inside the `try:` — the blanket
`except Exception` catches that `HTTPException` and re-raises a 400 whose
detail wraps it, so the surfaced error is a 400, not a 404-class error. -/
theorem C7_counterexample :
    (get_payment_status "paid" "success" "nosuch" 0 dbC7).2 =
      .error (.httpError 400 "Erro ao verificar pagamento: 404: Aluguel não encontrado") ∧
    (400 : Nat) ≠ 404 := by
  refine ⟨rfl, by decide⟩

/-- C7 amended: a payment-status request whose session id matches no rental
fails with a 400 client error: the unknown-session case raises a 404
internally, but the surrounding catch-all converts it into a 400 whose detail
wraps the 404 message; the collections are unchanged. -/
theorem C7_unknown_session_is_400 (gwPaymentStatus gwStatus sid : String)
    (now : Int) (db : DB)
    (h : db.rentals.find? (fun r => decide (r.payment_session_id = some sid)) = none) :
    get_payment_status gwPaymentStatus gwStatus sid now db =
      (db, .error (.httpError 400
        "Erro ao verificar pagamento: 404: Aluguel não encontrado")) := by
  unfold get_payment_status get_payment_status_inner
  rw [h]
  rfl

theorem C7_witness :
    dbC7.rentals.find? (fun r => decide (r.payment_session_id = some "zz")) = none ∧
    get_payment_status "paid" "success" "zz" 0 dbC7 =
      (dbC7, .error (.httpError 400
        "Erro ao verificar pagamento: 404: Aluguel não encontrado")) :=
  ⟨by decide, C7_unknown_session_is_400 "paid" "success" "zz" 0 dbC7 (by decide)⟩

/-! ## Claim C8 -/

/-- C8 counterexample: the PIN generator draws from
`random.randint(100000, 999999)`, so the value 0 — the code `000000`, like
every leading-zero code — is not a possible output. -/
theorem C8_counterexample : ¬ ∃ s : Nat, pinValue s = 0 := by
  rintro ⟨s, hs⟩
  unfold pinValue randint at hs
  omega

/-- C8 amended: every generated PIN value lies in 100000–999999 (exactly six
digits, leading digit nonzero) and every code in that range is a possible
output; codes below 100000 (those with a leading zero) are never produced. -/
theorem C8_pin_range_uniform (r : Nat) :
    100000 ≤ pinValue r ∧ pinValue r ≤ 999999 ∧
    ∀ c : Nat, 100000 ≤ c → c ≤ 999999 → ∃ s : Nat, pinValue s = c := by
  refine ⟨?_, ?_, ?_⟩
  · unfold pinValue randint
    omega
  · unfold pinValue randint
    omega
  · intro c h1 h2
    refine ⟨c - 100000, ?_⟩
    unfold pinValue randint
    omega

theorem C8_witness :
    100000 ≤ pinValue 0 ∧ pinValue 0 ≤ 999999 ∧ ∃ s : Nat, pinValue s = 100000 :=
  ⟨(C8_pin_range_uniform 0).1, (C8_pin_range_uniform 0).2.1,
   (C8_pin_range_uniform 0).2.2 100000 (by decide) (by decide)⟩

end LockerSys
